import Mathlib

/-!
Verification of the Aura AI chat client (src/index.tsx): a shallow embedding
of the message orchestrator, the chat streaming protocol and the video
polling protocol, with theorems settling the specification claims.
-/

/-- A message sender, `sender: 'user' | 'ai'` in the source. -/
inductive Sender where
  | user
  | ai
deriving DecidableEq, Repr

/-- The `Message` interface from src/index.tsx.  TypeScript optional string
fields become `Option String`; optional booleans (absent = falsy) become
`Bool` with default `false`. -/
structure Message where
  id : String
  text : String := ""
  sender : Sender
  imagePreview : Option String := none
  videoUrl : Option String := none
  isLoading : Bool := false
  streamingText : Option String := none
  isError : Bool := false
deriving DecidableEq, Repr

/-- The React component state of `App` that the orchestrator reads and
writes: the conversation store, the draft input, the staged attachment and
its preview, the busy flag, whether the chat session handle exists, and the
global error string. -/
structure AppState where
  messages : List Message
  input : String
  imageFile : Option String
  imagePreview : Option String
  isLoading : Bool
  chat : Bool
  error : Option String
deriving DecidableEq, Repr

/-- `setMessages(prev => prev.map(msg => msg.id === mid ? f(msg) : msg))`:
the in-place update-by-id used by every non-append store mutation. -/
def updateById (msgs : List Message) (mid : String) (f : Message → Message) : List Message :=
  msgs.map fun m => if m.id = mid then f m else m

/-- Look a message up by id (used only to state theorems). -/
def findMsg (msgs : List Message) (mid : String) : Option Message :=
  msgs.find? fun m => m.id = mid

/-- `accumulatedText` after folding a list of chunks onto `acc`, exactly the
`accumulatedText += chunk.text` loop accumulator. -/
def concatFrom (acc : String) (chunks : List String) : String :=
  chunks.foldl (· ++ ·) acc

/-- Concatenation of all chunks in arrival order. -/
def concatChunks (chunks : List String) : String :=
  concatFrom "" chunks

/-- The `for await (const chunk of result)` loop body of `sendChatMessage`:
each chunk is appended to the accumulator and the assistant message's
`streamingText` is overwritten with the whole accumulator.  Returns the
store and the accumulator after consuming the chunks. -/
def runChunks (msgs : List Message) (mid : String) (acc : String) :
    List String → List Message × String
  | [] => (msgs, acc)
  | c :: cs =>
      runChunks
        (updateById msgs mid fun m => { m with streamingText := some (acc ++ c) })
        mid (acc ++ c) cs

/-- Behaviour of one remote chat stream: the chunks delivered before the
stream either ends normally (`streamError = none`) or throws.  A throw
carries `some msg` when the thrown value is an `Error` with message `msg`,
and `none` when it is not an `Error` (the code then falls back to
"An unknown error occurred."). -/
structure ChatStream where
  chunks : List String
  streamError : Option (Option String)
deriving DecidableEq, Repr

/-- The pending assistant message appended when a chat exchange starts:
`{ id: aiMessageId, text: '', sender: 'ai', streamingText: '', isLoading: true }`. -/
def chatPlaceholder (aiMessageId : String) : Message :=
  { id := aiMessageId, text := "", sender := .ai, streamingText := some "", isLoading := true }

/-- `sendChatMessage(prompt, file)` from src/index.tsx, with the fresh
assistant message id and the stream behaviour passed explicitly.  If the
chat handle is absent it only sets the global error.  Otherwise it appends
a pending assistant message with empty `streamingText`, folds the chunks,
and performs the terminal mutation: on normal exhaustion it sets `text` to
the accumulator, clears `streamingText` and `isLoading`; on a throw it sets
`text` to the error description and sets `isError` (the spread keeps the
other fields, `streamingText` included). -/
def sendChatMessage (st : AppState) (aiMessageId : String) (prompt : String)
    (file : Option String) (stream : ChatStream) : AppState :=
  if !st.chat then
    { st with error := some "Chat session is not initialized." }
  else
    let msgs1 := st.messages ++ [chatPlaceholder aiMessageId]
    let r := runChunks msgs1 aiMessageId "" stream.chunks
    match stream.streamError with
    | none =>
        { st with messages := updateById r.1 aiMessageId fun m =>
            { m with text := r.2, streamingText := none, isLoading := false } }
    | some em =>
        let errorMessage := em.getD "An unknown error occurred."
        { st with messages := updateById r.1 aiMessageId fun m =>
            { m with text := "Sorry, I ran into an error: " ++ errorMessage,
                     isError := true, isLoading := false } }

/-- JavaScript `toLowerCase` on the character sequence. -/
def toLowerStr (s : String) : String := ⟨s.data.map Char.toLower⟩

/-- JavaScript `trim`: remove leading and trailing whitespace. -/
def trimStr (s : String) : String :=
  ⟨((s.data.dropWhile Char.isWhitespace).reverse.dropWhile Char.isWhitespace).reverse⟩

/-- JavaScript `startsWith`. -/
def startsWithStr (s p : String) : Bool := s.data.take p.data.length == p.data

/-- JavaScript `substring(n)`: drop the first `n` characters. -/
def dropStr (s : String) (n : Nat) : String := ⟨s.data.drop n⟩

/-- Helper for `strIncludes`: does `sub` occur in the list at some position? -/
def hasInfixAux (sub : List Char) : List Char → Bool
  | [] => sub.isEmpty
  | c :: t => sub == (c :: t).take sub.length || hasInfixAux sub t

/-- JavaScript `includes`: substring occurrence test. -/
def strIncludes (s sub : String) : Bool := hasInfixAux sub.data s.data

/-- Which remote protocol `handleSendMessage` dispatches an accepted
submission to (`none` = the submission was rejected as a no-op). -/
inductive Dispatch where
  | none
  | video (prompt : String)
  | chat (prompt : String) (file : Option String)
deriving DecidableEq, Repr

/-- The acceptance gate of `handleSendMessage`:
`if (isLoading || (!input.trim() && !imageFile)) return;`. -/
def submitRejected (st : AppState) : Bool :=
  st.isLoading || (trimStr st.input == "" && st.imageFile == none)

/-- The synchronous prefix of `handleSendMessage` from src/index.tsx: the
acceptance gate, appending the user message, clearing input and attachment,
setting the busy flag, and classifying the submission by the
case-insensitive `/video ` prefix of the trimmed text.  `newId` stands for
`Date.now().toString()`. -/
def handleSendMessage (st : AppState) (newId : String) : AppState × Dispatch :=
  if submitRejected st then
    (st, .none)
  else
    let userText := trimStr st.input
    let st1 : AppState :=
      { st with
        isLoading := true
        error := none
        messages := st.messages ++
          [{ id := newId, text := userText, sender := .user, imagePreview := st.imagePreview }]
        input := ""
        imageFile := none
        imagePreview := none }
    if startsWithStr (toLowerStr userText) "/video " then
      (st1, .video (trimStr (dropStr userText 7)))
    else
      (st1, .chat userText st.imageFile)

/-- A video operation handle as observed by `generateVideo`: `done`,
`error?.message` and `response?.generatedVideos?.[0]?.video?.uri`, each
flattened to an `Option`. -/
structure Operation where
  done : Bool
  error : Option String
  uri : Option String
deriving DecidableEq, Repr

/-- Truthiness of `downloadLink` in `if (!downloadLink) throw ...`: the
reference is present and not the empty string. -/
def linkPresent (op : Operation) : Bool :=
  match op.uri with
  | some s => !(s == "")
  | none => false

/-- The `while (!operation.done)` polling loop: starting from the operation
returned by the submission, poll (consume the next element of `polls`)
until an operation reports `done`.  Returns the final operation and the
number of polls issued, or `none` when the finite trace is exhausted with
no `done` operation (modelling the unbounded loop never terminating). -/
def pollLoop : Operation → List Operation → Option (Operation × Nat)
  | op, [] => if op.done then some (op, 0) else none
  | op, p :: ps =>
      if op.done then some (op, 0)
      else (pollLoop p ps).map fun r => (r.1, r.2 + 1)

/-- Result of the `generateVideos` submission call: either it threw (with
the computed error message) or it returned an operation handle. -/
inductive SubmitResult where
  | threw (errorMessage : String)
  | ok (op : Operation)
deriving DecidableEq, Repr

/-- Environment of one `generateVideo` call: the optional `window.aistudio`
key-selection capability (`some b` = capability present and
`hasSelectedApiKey()` returns `b`), the result of `generateVideos`, the
poll responses, and `process.env.API_KEY`. -/
structure VideoEnv where
  aistudio : Option Bool
  submitResult : SubmitResult
  polls : List Operation
  apiKey : String
deriving DecidableEq, Repr

/-- Side effects of one `generateVideo` call, counted for the claims about
the key-selection flow and the polling discipline. -/
structure VideoEffects where
  selectKeyCalls : Nat
  submitCalls : Nat
  pollCalls : Nat
deriving DecidableEq, Repr

/-- The error classification of `generateVideo`'s catch block: the
"Requested entity was not found" substring is special-cased into a key
selection hint, every other message gets the generic `Error: ` prefix. -/
def videoFailureText (errorMessage : String) : String :=
  if strIncludes errorMessage "Requested entity was not found" then
    "API key error. Please try selecting your key again. For more info, visit ai.google.dev/gemini-api/docs/billing"
  else
    "Error: " ++ errorMessage

/-- Terminal failure mutation shared by every path through the catch block
of `generateVideo`. -/
def videoFail (st : AppState) (msgs : List Message) (aiMessageId errorMessage : String) :
    AppState :=
  { st with messages := updateById msgs aiMessageId fun m =>
      { m with text := videoFailureText errorMessage, isLoading := false, isError := true } }

/-- `generateVideo(prompt)` from src/index.tsx with the fresh assistant id
and the environment passed explicitly.  Appends the pending "Preparing"
message; if the key-selection capability is present and no key is selected,
updates the status text and invokes the selection flow (once, with no
re-check afterwards); updates the status to "Generating"; submits; then
polls every 10 seconds until `done`.  A `done` operation with an error, or
without a usable media reference, throws into the catch block.  On success
`videoUrl` is set to the reference with the API key suffix.  The first
component is `none` when the poll loop never sees `done`. -/
def generateVideo (st : AppState) (aiMessageId : String) (prompt : String)
    (env : VideoEnv) : Option AppState × VideoEffects :=
  let msgs0 := st.messages ++
    [{ id := aiMessageId, sender := .ai,
       text := "🎬 Preparing to generate video for: \"" ++ prompt ++ "\"...",
       isLoading := true }]
  let needKey : Bool := env.aistudio == some false
  let msgs1 :=
    if needKey then
      updateById msgs0 aiMessageId fun m =>
        { m with text := "Please select an API key to generate videos." }
    else msgs0
  let selectCalls : Nat := if needKey then 1 else 0
  let msgs2 := updateById msgs1 aiMessageId fun m =>
    { m with text := "⏳ Generating your video... This can take a few minutes. Please be patient." }
  match env.submitResult with
  | .threw emsg =>
      (some (videoFail st msgs2 aiMessageId emsg), ⟨selectCalls, 1, 0⟩)
  | .ok op0 =>
      match pollLoop op0 env.polls with
      | none => (none, ⟨selectCalls, 1, env.polls.length⟩)
      | some (finalOp, n) =>
          let eff : VideoEffects := ⟨selectCalls, 1, n⟩
          match finalOp.error with
          | some emsg => (some (videoFail st msgs2 aiMessageId emsg), eff)
          | none =>
              if linkPresent finalOp then
                match finalOp.uri with
                | some uri =>
                    (some { st with messages := updateById msgs2 aiMessageId fun m =>
                        { m with text := "✅ Your video is ready!",
                                 videoUrl := some (uri ++ "&key=" ++ env.apiKey),
                                 isLoading := false } }, eff)
                | none =>
                    (some (videoFail st msgs2 aiMessageId
                      "Video generation failed to return a valid URL."), eff)
              else
                (some (videoFail st msgs2 aiMessageId
                  "Video generation failed to return a valid URL."), eff)

/-- One complete `handleSendMessage` run: the synchronous prefix, the
dispatched protocol, and the final `setIsLoading(false)` (skipped when the
submission was rejected, since the gate returns early). -/
def runSubmission (st : AppState) (newId aiId : String) (stream : ChatStream)
    (env : VideoEnv) : Option AppState :=
  match handleSendMessage st newId with
  | (st1, .none) => some st1
  | (st1, .video p) =>
      ((generateVideo st1 aiId p env).1).map fun s => { s with isLoading := false }
  | (st1, .chat t f) =>
      some { sendChatMessage st1 aiId t f stream with isLoading := false }

/-- The user-visible events that drive the application state. -/
inductive Event where
  | setInput (s : String)
  | attachImage (file preview : String)
  | removeImage
  | initChat (ok : Bool)
  | submit (newId aiId : String) (stream : ChatStream) (env : VideoEnv)

/-- The session transition function.  `setInput`, `attachImage` and
`removeImage` are the corresponding input-area handlers; `initChat` is the
startup effect creating the remote session handle (or failing); `submit` is
`handleSendMessage`.  The result is `none` only when a video poll loop
never terminates. -/
def step (st : AppState) : Event → Option AppState
  | .setInput s => some { st with input := s }
  | .attachImage f p => some { st with imageFile := some f, imagePreview := some p }
  | .removeImage => some { st with imageFile := none, imagePreview := none }
  | .initChat true => some { st with chat := true }
  | .initChat false =>
      some { st with error := some "Failed to initialize the AI model. Please check the API key." }
  | .submit newId aiId stream env => runSubmission st newId aiId stream env

/-- The greeting message the store is initialised with (src/index.tsx,
lines 105-112). -/
def greetingMsg : Message :=
  { id := "init", sender := .ai,
    text := "Hello! I'm Aura, your multimodal AI assistant. I can chat, understand images, and create videos. Try asking me something, or type `/video a cat playing a futuristic piano` to see what I can do!",
    isLoading := false }

/-- The initial application state: the greeting in the store, everything
else empty, no chat handle yet (it is created by the startup effect). -/
def initState : AppState :=
  { messages := [greetingMsg], input := "", imageFile := none, imagePreview := none,
    isLoading := false, chat := false, error := none }

/-- States reachable from startup by any sequence of events. -/
inductive Reachable : AppState → Prop where
  | init : Reachable initState
  | step {s : AppState} {e : Event} {s' : AppState} :
      Reachable s → step s e = some s' → Reachable s'

/-- The assistant message as it stands right before the generation request
is submitted: the status text has been overwritten twice (once more if the
key-selection flow ran), ending at the "Generating" notice. -/
def generatingMsg (aiId : String) : Message :=
  { id := aiId, sender := .ai,
    text := "⏳ Generating your video... This can take a few minutes. Please be patient.",
    isLoading := true }

/-- The terminal assistant message of a video job whose poll loop finished
with operation `fop`. -/
def videoFinalMsg (aiId apiKey : String) (fop : Operation) : Message :=
  match fop.error with
  | some emsg =>
      { generatingMsg aiId with
          text := videoFailureText emsg,
          isLoading := false,
          isError := true }
  | none =>
      if linkPresent fop then
        match fop.uri with
        | some uri =>
            { generatingMsg aiId with
                text := "✅ Your video is ready!",
                videoUrl := some (uri ++ "&key=" ++ apiKey),
                isLoading := false }
        | none => generatingMsg aiId
      else
        { generatingMsg aiId with
            text := videoFailureText "Video generation failed to return a valid URL.",
            isLoading := false,
            isError := true }

/-- Witness environment for C6: the submission response is not done, one
poll returns a completed operation with a media reference. -/
def pollEnv : VideoEnv :=
  { aistudio := none, submitResult := .ok ⟨false, none, none⟩,
    polls := [⟨true, none, some "u"⟩], apiKey := "K" }

/-- Claim C7 counterexample: an error text that contains the substring
"entity not found" but not the code's actual needle
"Requested entity was not found" is rendered as a generic prefixed error,
not as the key-selection hint the claim requires. -/
def entityEnv : VideoEnv :=
  { aistudio := none, submitResult := .threw "entity not found", polls := [], apiKey := "K" }

/-- Witness environment for C10: capability present, no key selected. -/
def keyEnv : VideoEnv :=
  { aistudio := some false, submitResult := .ok ⟨true, none, some "u"⟩,
    polls := [], apiKey := "K" }

/-! ## Basic lemmas about the store primitives -/

theorem updateById_length (msgs : List Message) (mid : String) (f : Message → Message) :
    (updateById msgs mid f).length = msgs.length := by
  simp [updateById]

theorem updateById_fresh (mid : String) (f : Message → Message) (p : Message)
    (hp : p.id = mid) :
    ∀ (msgs : List Message), (∀ m ∈ msgs, m.id ≠ mid) →
      updateById (msgs ++ [p]) mid f = msgs ++ [f p]
  | [], _ => by simp [updateById, hp]
  | a :: t, hfresh => by
      have ha : ¬ a.id = mid := hfresh a (by simp)
      have ht : ∀ m ∈ t, m.id ≠ mid := fun m hm => hfresh m (by simp [hm])
      have ih := updateById_fresh mid f p hp t ht
      simp only [updateById, List.cons_append, List.map_cons, if_neg ha] at *
      simp [ih]

theorem findMsg_append_fresh (mid : String) (q : Message) (hq : q.id = mid) :
    ∀ (msgs : List Message), (∀ m ∈ msgs, m.id ≠ mid) →
      findMsg (msgs ++ [q]) mid = some q
  | [], _ => by simp [findMsg, hq]
  | a :: t, hfresh => by
      have ha : ¬ a.id = mid := hfresh a (by simp)
      have ht : ∀ m ∈ t, m.id ≠ mid := fun m hm => hfresh m (by simp [hm])
      have ih := findMsg_append_fresh mid q hq t ht
      simp only [findMsg, List.cons_append, List.find?] at *
      simp [ha, ih]

/-! ## Lemmas about chunk accumulation -/

theorem concatFrom_eq (cs : List String) :
    ∀ acc : String, concatFrom acc cs = acc ++ concatChunks cs := by
  induction cs with
  | nil => intro acc; simp [concatFrom, concatChunks]
  | cons c cs ih =>
      intro acc
      show concatFrom (acc ++ c) cs = acc ++ concatChunks (c :: cs)
      rw [ih (acc ++ c), String.append_assoc]
      have : concatChunks (c :: cs) = c ++ concatChunks cs := by
        show concatFrom ("" ++ c) cs = c ++ concatChunks cs
        rw [ih ("" ++ c)]
        simp
      rw [this]

theorem concatChunks_take_succ (cs : List String) (n : Nat) (h : n < cs.length) :
    concatChunks (cs.take (n + 1)) = concatChunks (cs.take n) ++ cs.get ⟨n, h⟩ := by
  have ht : cs.take (n + 1) = cs.take n ++ [cs.get ⟨n, h⟩] :=
    (List.take_concat_get' cs n h).symm
  rw [ht]
  show concatFrom "" (cs.take n ++ [cs.get ⟨n, h⟩]) = _
  rw [concatFrom, List.foldl_append]
  exact rfl

theorem concatChunks_take_mono (cs : List String) :
    ∀ i j : Nat, i ≤ j →
      (concatChunks (cs.take i)).length ≤ (concatChunks (cs.take j)).length := by
  have hstep : ∀ n : Nat,
      (concatChunks (cs.take n)).length ≤ (concatChunks (cs.take (n + 1))).length := by
    intro n
    by_cases h : n < cs.length
    · rw [concatChunks_take_succ cs n h, String.length_append]
      exact Nat.le_add_right _ _
    · rw [List.take_of_length_le (Nat.le_of_not_lt h),
          List.take_of_length_le (Nat.le_trans (Nat.le_of_not_lt h) (Nat.le_succ n))]
  intro i j hij
  exact monotone_nat_of_le_succ hstep hij

/-! ## Lemmas about the streaming loop -/

theorem runChunks_length (mid : String) :
    ∀ (cs : List String) (msgs : List Message) (acc : String),
      (runChunks msgs mid acc cs).1.length = msgs.length
  | [], _, _ => rfl
  | c :: cs, msgs, acc => by
      show (runChunks (updateById msgs mid _) mid (acc ++ c) cs).1.length = _
      rw [runChunks_length mid cs, updateById_length]

theorem runChunks_fresh (mid : String) :
    ∀ (cs : List String) (msgs : List Message) (p : Message) (acc : String),
      (∀ m ∈ msgs, m.id ≠ mid) → p.id = mid →
      runChunks (msgs ++ [p]) mid acc cs
        = (msgs ++ [if cs.isEmpty then p
                     else { p with streamingText := some (concatFrom acc cs) }],
           concatFrom acc cs)
  | [], msgs, p, acc, _, _ => by simp [runChunks, concatFrom]
  | c :: cs, msgs, p, acc, hfresh, hpid => by
      show runChunks (updateById (msgs ++ [p]) mid _) mid (acc ++ c) cs = _
      rw [updateById_fresh mid _ p hpid msgs hfresh]
      have hpid2 : ({ p with streamingText := some (acc ++ c) } : Message).id = mid := hpid
      rw [runChunks_fresh mid cs msgs _ (acc ++ c) hfresh hpid2]
      cases cs with
      | nil => simp [concatFrom]
      | cons d ds => simp [concatFrom]
/-! ## Run lemmas: full characterization of the protocol executions -/

theorem sendChatMessage_run_ok (st : AppState) (aiId prompt : String) (file : Option String)
    (cs : List String) (hchat : st.chat = true)
    (hfresh : ∀ m ∈ st.messages, m.id ≠ aiId) :
    sendChatMessage st aiId prompt file ⟨cs, none⟩
      = { st with messages := st.messages ++
          [{ chatPlaceholder aiId with
              text := concatChunks cs,
              streamingText := none,
              isLoading := false }] } := by
  unfold sendChatMessage
  rw [hchat]
  simp only [Bool.not_true, Bool.false_eq_true, if_false]
  rw [runChunks_fresh aiId cs st.messages (chatPlaceholder aiId) "" hfresh rfl]
  have hid : (if cs.isEmpty then chatPlaceholder aiId
      else { chatPlaceholder aiId with streamingText := some (concatFrom "" cs) }).id = aiId := by
    cases cs <;> rfl
  rw [updateById_fresh aiId _ _ hid st.messages hfresh]
  cases cs <;> rfl

theorem sendChatMessage_run_err (st : AppState) (aiId prompt : String) (file : Option String)
    (cs : List String) (em : Option String) (hchat : st.chat = true)
    (hfresh : ∀ m ∈ st.messages, m.id ≠ aiId) :
    sendChatMessage st aiId prompt file ⟨cs, some em⟩
      = { st with messages := st.messages ++
          [{ chatPlaceholder aiId with
              text := "Sorry, I ran into an error: " ++ em.getD "An unknown error occurred.",
              streamingText := some (concatChunks cs),
              isError := true,
              isLoading := false }] } := by
  unfold sendChatMessage
  rw [hchat]
  simp only [Bool.not_true, Bool.false_eq_true, if_false]
  rw [runChunks_fresh aiId cs st.messages (chatPlaceholder aiId) "" hfresh rfl]
  have hid : (if cs.isEmpty then chatPlaceholder aiId
      else { chatPlaceholder aiId with streamingText := some (concatFrom "" cs) }).id = aiId := by
    cases cs <;> rfl
  rw [updateById_fresh aiId _ _ hid st.messages hfresh]
  cases cs <;> rfl

theorem pollLoop_spec :
    ∀ (polls : List Operation) (op fop : Operation) (n : Nat),
      pollLoop op polls = some (fop, n) →
      fop.done = true ∧ n = ((op :: polls).takeWhile fun o => !o.done).length
  | [], op, fop, n, h => by
      by_cases hd : op.done
      · simp only [pollLoop, if_pos hd, Option.some.injEq, Prod.mk.injEq] at h
        obtain ⟨h1, h2⟩ := h
        subst h1; subst h2
        simp [hd]
      · simp [pollLoop, hd] at h
  | p :: ps, op, fop, n, h => by
      by_cases hd : op.done
      · simp only [pollLoop, if_pos hd, Option.some.injEq, Prod.mk.injEq] at h
        obtain ⟨h1, h2⟩ := h
        subst h1; subst h2
        simp [hd]
      · simp only [pollLoop, if_neg hd, Option.map_eq_some'] at h
        obtain ⟨⟨r1, r2⟩, hr, heq⟩ := h
        obtain ⟨hdone, hn⟩ := pollLoop_spec ps p r1 r2 hr
        have h1 : r1 = fop := by simpa using congrArg Prod.fst heq
        have h2 : r2 + 1 = n := by simpa using congrArg Prod.snd heq
        subst h1
        refine ⟨hdone, ?_⟩
        rw [← h2, hn]
        simp [List.takeWhile, hd]

theorem generateVideo_threw (st : AppState) (aiId prompt : String) (env : VideoEnv)
    (emsg : String) (hfresh : ∀ m ∈ st.messages, m.id ≠ aiId)
    (hsubmit : env.submitResult = .threw emsg) :
    generateVideo st aiId prompt env
      = (some { st with messages := st.messages ++
          [{ generatingMsg aiId with
              text := videoFailureText emsg,
              isLoading := false,
              isError := true }] },
         ⟨if env.aistudio == some false then 1 else 0, 1, 0⟩) := by
  have upd : ∀ (x : Message) (f : Message → Message), x.id = aiId →
      updateById (st.messages ++ [x]) aiId f = st.messages ++ [f x] :=
    fun x f hx => updateById_fresh aiId f x hx st.messages hfresh
  unfold generateVideo videoFail
  rw [hsubmit]
  by_cases hk : env.aistudio == some false
  · simp only [hk, if_true]
    rw [upd _ _ rfl, upd _ _ rfl, upd _ _ rfl]
    rfl
  · simp only [hk, Bool.false_eq_true, if_false]
    rw [upd _ _ rfl, upd _ _ rfl]
    rfl

theorem generateVideo_run (st : AppState) (aiId prompt : String) (env : VideoEnv)
    (op0 fop : Operation) (n : Nat)
    (hfresh : ∀ m ∈ st.messages, m.id ≠ aiId)
    (hsubmit : env.submitResult = .ok op0)
    (hpoll : pollLoop op0 env.polls = some (fop, n)) :
    generateVideo st aiId prompt env
      = (some { st with messages := st.messages ++ [videoFinalMsg aiId env.apiKey fop] },
         ⟨if env.aistudio == some false then 1 else 0, 1, n⟩) := by
  have upd : ∀ (x : Message) (f : Message → Message), x.id = aiId →
      updateById (st.messages ++ [x]) aiId f = st.messages ++ [f x] :=
    fun x f hx => updateById_fresh aiId f x hx st.messages hfresh
  unfold generateVideo videoFail
  rw [hsubmit]
  dsimp only
  rw [hpoll]
  dsimp only
  obtain ⟨fd, fe, fu⟩ := fop
  by_cases hk : env.aistudio == some false
  all_goals simp only [hk, Bool.false_eq_true, if_true, if_false]
  all_goals unfold videoFinalMsg
  all_goals cases fe with
    | some e =>
        dsimp only
        rw [upd _ _ rfl, upd _ _ rfl]
        try rw [upd _ _ rfl]
        rfl
    | none =>
        cases fu with
        | none =>
            dsimp only
            simp only [linkPresent, Bool.false_eq_true, if_false]
            rw [upd _ _ rfl, upd _ _ rfl]
            try rw [upd _ _ rfl]
            rfl
        | some u =>
            by_cases hu : u = ""
            · subst hu
              dsimp only
              simp only [linkPresent, String.reduceBEq, Bool.not_true, Bool.false_eq_true,
                if_false]
              rw [upd _ _ rfl, upd _ _ rfl]
              try rw [upd _ _ rfl]
              rfl
            · have hl : linkPresent ⟨fd, none, some u⟩ = true := by
                simp [linkPresent, hu]
              dsimp only
              rw [hl]
              simp only [if_true]
              rw [upd _ _ rfl, upd _ _ rfl]
              try rw [upd _ _ rfl]
              rfl

/-! ## Length lemmas: the store only grows -/

theorem sendChatMessage_no_handle (st : AppState) (aiId prompt : String)
    (file : Option String) (stream : ChatStream) (h : st.chat = false) :
    sendChatMessage st aiId prompt file stream
      = { st with error := some "Chat session is not initialized." } := by
  unfold sendChatMessage
  rw [h]
  rfl

theorem sendChatMessage_length (st : AppState) (aiId prompt : String)
    (file : Option String) (stream : ChatStream) :
    st.messages.length ≤ (sendChatMessage st aiId prompt file stream).messages.length := by
  unfold sendChatMessage
  cases hc : st.chat with
  | false => exact Nat.le_refl _
  | true =>
      cases stream.streamError with
      | none =>
          simp only [Bool.not_true, Bool.false_eq_true, if_false, updateById_length,
            runChunks_length, List.length_append, List.length_singleton]
          exact Nat.le_succ _
      | some em =>
          simp only [Bool.not_true, Bool.false_eq_true, if_false, updateById_length,
            runChunks_length, List.length_append, List.length_singleton]
          exact Nat.le_succ _

theorem generateVideo_length (st : AppState) (aiId prompt : String) (env : VideoEnv)
    (st' : AppState) (h : (generateVideo st aiId prompt env).1 = some st') :
    st.messages.length ≤ st'.messages.length := by
  unfold generateVideo videoFail at h
  dsimp only at h
  have key : ∀ msgs : List Message,
      msgs.length = st.messages.length + 1 →
      ∀ s : AppState, s.messages = msgs → st.messages.length ≤ s.messages.length := by
    intro msgs hm s hs
    rw [hs, hm]
    exact Nat.le_succ _
  by_cases hk : (env.aistudio == some false) = true
  all_goals simp only [hk, Bool.false_eq_true, if_true, if_false] at h
  all_goals cases hs : env.submitResult with
    | threw emsg =>
        rw [hs] at h
        dsimp only at h
        obtain rfl : _ = st' := Option.some.inj h
        simp [updateById_length]
    | ok op0 =>
        rw [hs] at h
        dsimp only at h
        cases hp : pollLoop op0 env.polls with
        | none => rw [hp] at h; exact absurd h (by simp)
        | some r =>
            rw [hp] at h
            obtain ⟨fop, n⟩ := r
            dsimp only at h
            cases he : fop.error with
            | some e =>
                rw [he] at h
                try dsimp only at h
                obtain rfl : _ = st' := Option.some.inj h
                simp [updateById_length]
            | none =>
                rw [he] at h
                try dsimp only at h
                by_cases hl : linkPresent fop = true
                all_goals simp only [hl, Bool.false_eq_true, if_true, if_false] at h
                · cases hu : fop.uri with
                  | some u =>
                      rw [hu] at h
                      try dsimp only at h
                      obtain rfl : _ = st' := Option.some.inj h
                      simp [updateById_length]
                  | none =>
                      rw [hu] at h
                      try dsimp only at h
                      obtain rfl : _ = st' := Option.some.inj h
                      simp [updateById_length]
                · obtain rfl : _ = st' := Option.some.inj h
                  simp [updateById_length]

theorem handleSendMessage_length (st : AppState) (newId : String) :
    st.messages.length ≤ (handleSendMessage st newId).1.messages.length := by
  unfold handleSendMessage
  by_cases hr : submitRejected st = true
  · rw [if_pos hr]
  · rw [if_neg hr]
    dsimp only
    by_cases hv : startsWithStr (toLowerStr (trimStr st.input)) "/video " = true
    · rw [if_pos hv]
      simp
    · rw [if_neg hv]
      simp

theorem runSubmission_length (st : AppState) (newId aiId : String) (stream : ChatStream)
    (env : VideoEnv) (st' : AppState)
    (h : runSubmission st newId aiId stream env = some st') :
    st.messages.length ≤ st'.messages.length := by
  unfold runSubmission at h
  rcases hd : handleSendMessage st newId with ⟨st1, d⟩
  rw [hd] at h
  have h1 : st.messages.length ≤ st1.messages.length := by
    have hx := handleSendMessage_length st newId
    rw [hd] at hx
    exact hx
  cases d with
  | none =>
      dsimp only at h
      obtain rfl := Option.some.inj h
      exact h1
  | video p =>
      dsimp only at h
      rw [Option.map_eq_some'] at h
      obtain ⟨s, hs, rfl⟩ := h
      exact Nat.le_trans h1 (generateVideo_length st1 aiId p env s hs)
  | chat t f =>
      dsimp only at h
      obtain rfl := Option.some.inj h
      exact Nat.le_trans h1 (sendChatMessage_length st1 aiId t f stream)

theorem step_length (st : AppState) (e : Event) (st' : AppState)
    (h : step st e = some st') : st.messages.length ≤ st'.messages.length := by
  cases e with
  | setInput s =>
      obtain rfl := Option.some.inj h
      exact Nat.le_refl _
  | attachImage f p =>
      obtain rfl := Option.some.inj h
      exact Nat.le_refl _
  | removeImage =>
      obtain rfl := Option.some.inj h
      exact Nat.le_refl _
  | initChat ok =>
      cases ok with
      | true =>
          obtain rfl := Option.some.inj h
          exact Nat.le_refl _
      | false =>
          obtain rfl := Option.some.inj h
          exact Nat.le_refl _
  | submit newId aiId stream env =>
      exact runSubmission_length st newId aiId stream env st' h

theorem reachable_nonempty (s : AppState) (h : Reachable s) : s.messages ≠ [] := by
  induction h with
  | init => simp [initState]
  | step hr hs ih =>
      rename_i s1 e s2
      intro hemp
      have hlen := step_length s1 e s2 hs
      rw [hemp] at hlen
      simp at hlen
      exact ih hlen

/-! ## Claim theorems -/

/-- Claim C1: for every accepted chat submission, after the n-th chunk the
assistant message's `streamingText` equals the concatenation of the first n
chunks in arrival order (overwritten, not appended), these values are
non-decreasing in length, and on stream exhaustion the message's `text` is
the full concatenation with `streamingText` and `isLoading` cleared. -/
theorem chat_streaming_accumulation (st : AppState) (aiId prompt : String)
    (file : Option String) (cs : List String)
    (hchat : st.chat = true) (hfresh : ∀ m ∈ st.messages, m.id ≠ aiId) :
    (∀ n : Nat, 0 < n → n ≤ cs.length →
       findMsg (runChunks (st.messages ++ [chatPlaceholder aiId]) aiId "" (cs.take n)).1 aiId
         = some { chatPlaceholder aiId with streamingText := some (concatChunks (cs.take n)) })
    ∧ (∀ i j : Nat, i ≤ j →
        (concatChunks (cs.take i)).length ≤ (concatChunks (cs.take j)).length)
    ∧ findMsg (sendChatMessage st aiId prompt file ⟨cs, none⟩).messages aiId
        = some { chatPlaceholder aiId with
            text := concatChunks cs, streamingText := none, isLoading := false } := by
  refine ⟨?_, concatChunks_take_mono cs, ?_⟩
  · intro n hn hle
    rw [runChunks_fresh aiId (cs.take n) st.messages (chatPlaceholder aiId) "" hfresh rfl]
    have hlen : (cs.take n).length = n := by
      rw [List.length_take]
      exact Nat.min_eq_left hle
    have hne : (cs.take n).isEmpty = false := by
      cases hcs : cs.take n with
      | nil =>
          rw [hcs] at hlen
          simp at hlen
          omega
      | cons a l => rfl
    rw [hne]
    simp only [Bool.false_eq_true, if_false]
    exact findMsg_append_fresh aiId _ rfl st.messages hfresh
  · rw [sendChatMessage_run_ok st aiId prompt file cs hchat hfresh]
    exact findMsg_append_fresh aiId _ rfl st.messages hfresh

/-- Witness for C1 at a concrete two-chunk stream. -/
theorem chat_streaming_accumulation_witness :
    findMsg (sendChatMessage { initState with chat := true } "a1" "hi" none
        ⟨["He", "l"], none⟩).messages "a1"
      = some { chatPlaceholder "a1" with
          text := "Hel", streamingText := none, isLoading := false } := by
  have h := (chat_streaming_accumulation { initState with chat := true } "a1" "hi" none
    ["He", "l"] rfl (by decide)).2.2
  rw [show concatChunks ["He", "l"] = "Hel" from by decide] at h
  exact h

/-- Claim C2: an accepted submission whose trimmed text begins with the
case-insensitive token `/video ` is dispatched to the video protocol with
the remainder trimmed, and never to the chat protocol; every other accepted
submission is dispatched to the chat protocol. -/
theorem video_command_dispatch (st : AppState) (newId : String)
    (haccept : submitRejected st = false) :
    (startsWithStr (toLowerStr (trimStr st.input)) "/video " = true →
       (handleSendMessage st newId).2 = .video (trimStr (dropStr (trimStr st.input) 7)))
    ∧ (startsWithStr (toLowerStr (trimStr st.input)) "/video " = false →
       (handleSendMessage st newId).2 = .chat (trimStr st.input) st.imageFile) := by
  constructor <;> intro hv <;>
    simp only [handleSendMessage, haccept, hv, Bool.false_eq_true, if_false, if_true]

/-- Witness for C2 at a concrete `/video` submission. -/
theorem video_command_dispatch_witness :
    (handleSendMessage { initState with input := " /Video  a cat  " } "u1").2
      = .video "a cat" := by
  have h := (video_command_dispatch { initState with input := " /Video  a cat  " } "u1"
    (by decide)).1 (by decide)
  rw [show trimStr (dropStr (trimStr " /Video  a cat  ") 7) = "a cat" from by decide] at h
  exact h

/-- Claim C3: while a submission is pending, or when the trimmed text is
empty and no attachment is staged, `submit` is a no-op: the state is
unchanged, no protocol is dispatched, and the store length is untouched. -/
theorem submit_gate_noop (st : AppState) (newId aiId : String) (stream : ChatStream)
    (env : VideoEnv) (h : submitRejected st = true) :
    handleSendMessage st newId = (st, Dispatch.none)
    ∧ runSubmission st newId aiId stream env = some st := by
  have h1 : handleSendMessage st newId = (st, Dispatch.none) := by
    unfold handleSendMessage
    rw [h]
    exact if_pos rfl
  refine ⟨h1, ?_⟩
  unfold runSubmission
  rw [h1]

/-- Witness for C3 at a busy state. -/
theorem submit_gate_noop_witness :
    handleSendMessage { initState with isLoading := true, input := "hi" } "u1"
      = ({ initState with isLoading := true, input := "hi" }, Dispatch.none)
    ∧ runSubmission { initState with isLoading := true, input := "hi" } "u1" "a1"
        ⟨[], none⟩ ⟨none, .threw "x", [], "K"⟩
      = some { initState with isLoading := true, input := "hi" } :=
  submit_gate_noop { initState with isLoading := true, input := "hi" } "u1" "a1"
    ⟨[], none⟩ ⟨none, .threw "x", [], "K"⟩ (by decide)

set_option maxRecDepth 100000 in
/-- Claim C4 (code bug): a chat stream that emits "Hel" and then throws
`Error("boom")` leaves the assistant message with the error text, `isError`
set and `isLoading` cleared, but `streamingText` still equal to the partial
accumulation `"Hel"` — the catch-branch spread does not clear it, contrary
to the specified behaviour (and the renderer prefers `streamingText` over
`text`, so the error text is never displayed). -/
theorem chat_error_retains_partial_stream :
    sendChatMessage { initState with chat := true } "a1" "hi" none
        { chunks := ["Hel"], streamError := some (some "boom") }
      = { initState with chat := true, messages := [greetingMsg,
          { id := "a1", text := "Sorry, I ran into an error: boom", sender := .ai,
            streamingText := some "Hel", isLoading := false, isError := true }] } := by
  decide

set_option maxRecDepth 100000 in
/-- Claim C5 counterexample: with no chat handle, a chat submission appends
no failed assistant message at all — the store is unchanged and only the
global error field is set. -/
theorem chat_no_handle_counterexample :
    (sendChatMessage initState "a1" "hi" none ⟨[], none⟩).messages = [greetingMsg]
    ∧ greetingMsg.isError = false
    ∧ (sendChatMessage initState "a1" "hi" none ⟨[], none⟩).error
        = some "Chat session is not initialized." := by
  decide

/-- Claim C5 (amended): if the remote session handle does not exist, the
chat protocol returns immediately, setting the global error string
"Chat session is not initialized."; the conversation store is unchanged (no
assistant message is appended) and no retry occurs. -/
theorem chat_no_handle_sets_error (st : AppState) (aiId prompt : String)
    (file : Option String) (stream : ChatStream) (h : st.chat = false) :
    sendChatMessage st aiId prompt file stream
      = { st with error := some "Chat session is not initialized." } :=
  sendChatMessage_no_handle st aiId prompt file stream h

/-- Witness for the amended C5. -/
theorem chat_no_handle_sets_error_witness :
    sendChatMessage initState "a1" "hi" none ⟨[], none⟩
      = { initState with error := some "Chat session is not initialized." } :=
  chat_no_handle_sets_error initState "a1" "hi" none ⟨[], none⟩ rfl

theorem videoFinalMsg_id (aiId k : String) (fop : Operation) :
    (videoFinalMsg aiId k fop).id = aiId := by
  unfold videoFinalMsg
  split
  · rfl
  · split
    · split
      · rfl
      · rfl
    · rfl

/-- Claim C6: for every video job, no poll is issued before the first
submission response (a first response with `done` yields zero polls), the
number of polls equals the number of consecutive not-`done` statuses
starting from the submission response (one per 10-second interval),
`videoUrl` is set iff the final operation is `done` with a usable media
reference and no error, and a `done` operation without a media reference
ends failed with a "failed to return a valid URL" text. -/
theorem video_polling_and_media (st : AppState) (aiId prompt : String) (env : VideoEnv)
    (op0 fop : Operation) (n : Nat)
    (hfresh : ∀ m ∈ st.messages, m.id ≠ aiId)
    (hsubmit : env.submitResult = .ok op0)
    (hpoll : pollLoop op0 env.polls = some (fop, n)) :
    (generateVideo st aiId prompt env).2.pollCalls
        = ((op0 :: env.polls).takeWhile fun o => !o.done).length
    ∧ (op0.done = true → (generateVideo st aiId prompt env).2.pollCalls = 0)
    ∧ (generateVideo st aiId prompt env).1
        = some { st with messages := st.messages ++ [videoFinalMsg aiId env.apiKey fop] }
    ∧ findMsg (st.messages ++ [videoFinalMsg aiId env.apiKey fop]) aiId
        = some (videoFinalMsg aiId env.apiKey fop)
    ∧ ((videoFinalMsg aiId env.apiKey fop).videoUrl.isSome = true
        ↔ (fop.done = true ∧ fop.error = none ∧ linkPresent fop = true))
    ∧ (fop.error = none → linkPresent fop = false →
        (videoFinalMsg aiId env.apiKey fop).isError = true
        ∧ (videoFinalMsg aiId env.apiKey fop).text
            = "Error: Video generation failed to return a valid URL."
        ∧ strIncludes (videoFinalMsg aiId env.apiKey fop).text
            "failed to return a valid URL" = true
        ∧ (videoFinalMsg aiId env.apiKey fop).isLoading = false) := by
  obtain ⟨hdone, hn⟩ := pollLoop_spec env.polls op0 fop n hpoll
  have hrun := generateVideo_run st aiId prompt env op0 fop n hfresh hsubmit hpoll
  refine ⟨?_, ?_, ?_, ?_, ?_, ?_⟩
  · rw [hrun]
    exact hn
  · intro hd0
    rw [hrun]
    show n = 0
    rw [hn]
    simp [List.takeWhile_cons, hd0]
  · rw [hrun]
  · exact findMsg_append_fresh aiId _ (videoFinalMsg_id aiId env.apiKey fop) st.messages hfresh
  · obtain ⟨fd, fe, fu⟩ := fop
    have hfd : fd = true := hdone
    subst hfd
    cases fe with
    | some e => simp [videoFinalMsg, generatingMsg]
    | none =>
        cases fu with
        | none => simp [videoFinalMsg, generatingMsg, linkPresent]
        | some u =>
            by_cases hu : u = ""
            · subst hu
              simp [videoFinalMsg, generatingMsg, linkPresent]
            · simp [videoFinalMsg, generatingMsg, linkPresent, hu]
  · intro herr hlink
    obtain ⟨fd, fe, fu⟩ := fop
    have hfe : fe = none := herr
    subst hfe
    have hvm : videoFinalMsg aiId env.apiKey ⟨fd, none, fu⟩
        = { generatingMsg aiId with
            text := videoFailureText "Video generation failed to return a valid URL.",
            isLoading := false, isError := true } := by
      unfold videoFinalMsg
      rw [hlink]
      simp only [Bool.false_eq_true, if_false]
    rw [hvm]
    refine ⟨rfl, ?_, ?_, rfl⟩
    · show videoFailureText "Video generation failed to return a valid URL."
          = "Error: Video generation failed to return a valid URL."
      decide
    · show strIncludes (videoFailureText "Video generation failed to return a valid URL.")
          "failed to return a valid URL" = true
      decide

set_option maxRecDepth 100000 in
/-- Witness for C6 at `pollEnv`. -/
theorem video_polling_and_media_witness :
    (generateVideo initState "a1" "p" pollEnv).2.pollCalls
        = ((Operation.mk false none none :: pollEnv.polls).takeWhile fun o => !o.done).length
    ∧ (generateVideo initState "a1" "p" pollEnv).1
        = some { initState with messages := initState.messages
            ++ [videoFinalMsg "a1" pollEnv.apiKey ⟨true, none, some "u"⟩] } := by
  have h := video_polling_and_media initState "a1" "p" pollEnv
    ⟨false, none, none⟩ ⟨true, none, some "u"⟩ 1 (by decide) rfl (by decide)
  exact ⟨h.1, h.2.2.1⟩

set_option maxRecDepth 100000 in
/-- Claim C7 counterexample (see `entityEnv`). -/
theorem video_hint_substring_counterexample :
    strIncludes "entity not found" "entity not found" = true
    ∧ (generateVideo initState "a1" "p" entityEnv).1
        = some { initState with messages := [greetingMsg,
            { id := "a1", sender := .ai, text := "Error: entity not found",
              isLoading := false, isError := true }] }
    ∧ ("Error: entity not found"
        == "API key error. Please try selecting your key again. For more info, visit ai.google.dev/gemini-api/docs/billing")
      = false := by
  decide

/-- Claim C7 (amended): for every video-job failure — a submission throw or
a completed operation carrying an error — the terminal assistant message is
failed and not pending, and its text is the key-selection hint exactly when
the error text contains the substring "Requested entity was not found",
and the generic `Error: `-prefixed string otherwise. -/
theorem video_failure_classification (st : AppState) (aiId prompt : String)
    (env : VideoEnv) (emsg : String)
    (hfresh : ∀ m ∈ st.messages, m.id ≠ aiId)
    (hfail : env.submitResult = .threw emsg
      ∨ ∃ op0 fop n, env.submitResult = .ok op0
          ∧ pollLoop op0 env.polls = some (fop, n) ∧ fop.error = some emsg) :
    (generateVideo st aiId prompt env).1
      = some { st with messages := st.messages ++
          [{ generatingMsg aiId with
              text := if strIncludes emsg "Requested entity was not found"
                  then "API key error. Please try selecting your key again. For more info, visit ai.google.dev/gemini-api/docs/billing"
                  else "Error: " ++ emsg,
              isLoading := false,
              isError := true }] } := by
  cases hfail with
  | inl hthrew =>
      rw [generateVideo_threw st aiId prompt env emsg hfresh hthrew]
      exact rfl
  | inr hok =>
      obtain ⟨op0, fop, n, hsubmit, hpoll, herr⟩ := hok
      rw [generateVideo_run st aiId prompt env op0 fop n hfresh hsubmit hpoll]
      unfold videoFinalMsg
      rw [herr]
      exact rfl

set_option maxRecDepth 100000 in
/-- Witness for the amended C7 at a submission throw carrying the needle. -/
theorem video_failure_classification_witness :
    (generateVideo initState "a1" "p"
        ⟨none, .threw "Requested entity was not found: veo", [], "K"⟩).1
      = some { initState with messages := initState.messages ++
          [{ generatingMsg "a1" with
              text := if strIncludes "Requested entity was not found: veo"
                      "Requested entity was not found"
                  then "API key error. Please try selecting your key again. For more info, visit ai.google.dev/gemini-api/docs/billing"
                  else "Error: " ++ "Requested entity was not found: veo",
              isLoading := false,
              isError := true }] } :=
  video_failure_classification initState "a1" "p"
    ⟨none, .threw "Requested entity was not found: veo", [], "K"⟩
    "Requested entity was not found: veo" (by decide) (Or.inl rfl)

/-- Claim C8: every store mutation is an append or an in-place
update-by-id (`updateById` preserves length), so across any session step —
including a full submission with its protocol run — the conversation store
length is non-decreasing and no message is ever deleted. -/
theorem conversation_store_monotone (st : AppState) (e : Event) (st' : AppState)
    (msgs : List Message) (mid : String) (f : Message → Message)
    (h : step st e = some st') :
    (updateById msgs mid f).length = msgs.length
    ∧ st.messages.length ≤ st'.messages.length :=
  ⟨updateById_length msgs mid f, step_length st e st' h⟩

/-- Witness for C8 at a concrete step. -/
theorem conversation_store_monotone_witness :
    (updateById [greetingMsg] "init" id).length = [greetingMsg].length
    ∧ initState.messages.length
        ≤ ({ initState with input := "x" } : AppState).messages.length :=
  conversation_store_monotone initState (.setInput "x") { initState with input := "x" }
    [greetingMsg] "init" id rfl

/-- Claim C9: at startup the conversation store holds exactly the assistant
greeting, not pending; consequently the store is non-empty in every
reachable state. -/
theorem initial_store_greeting (s : AppState) (h : Reachable s) :
    initState.messages = [greetingMsg]
    ∧ greetingMsg.sender = Sender.ai
    ∧ greetingMsg.isLoading = false
    ∧ s.messages ≠ [] :=
  ⟨rfl, rfl, rfl, reachable_nonempty s h⟩

/-- Witness for C9 at the initial state itself. -/
theorem initial_store_greeting_witness :
    initState.messages = [greetingMsg]
    ∧ greetingMsg.sender = Sender.ai
    ∧ greetingMsg.isLoading = false
    ∧ initState.messages ≠ [] :=
  initial_store_greeting initState Reachable.init

/-- Claim C10: when the key-selection capability is present and no key is
selected, the selection flow runs exactly once and the generation request
is then submitted unconditionally — there is no re-check of the key state
between the selection flow and the submission. -/
theorem key_selection_once (st : AppState) (aiId prompt : String) (env : VideoEnv)
    (h : env.aistudio = some false) :
    (generateVideo st aiId prompt env).2.selectKeyCalls = 1
    ∧ (generateVideo st aiId prompt env).2.submitCalls = 1 := by
  unfold generateVideo
  have hk : (env.aistudio == some false) = true := by rw [h]; rfl
  simp only [hk, if_true]
  cases env.submitResult with
  | threw e => exact ⟨rfl, rfl⟩
  | ok op0 =>
      dsimp only
      cases pollLoop op0 env.polls with
      | none => exact ⟨rfl, rfl⟩
      | some r =>
          obtain ⟨fop, n⟩ := r
          dsimp only
          cases fop.error with
          | some e => exact ⟨rfl, rfl⟩
          | none =>
              dsimp only
              by_cases hl : linkPresent fop = true
              · simp only [hl, if_true]
                cases fop.uri with
                | some u => exact ⟨rfl, rfl⟩
                | none => exact ⟨rfl, rfl⟩
              · simp only [hl, Bool.false_eq_true, if_false]
                exact ⟨True.intro, True.intro⟩

/-- Witness for C10 at `keyEnv`. -/
theorem key_selection_once_witness :
    (generateVideo initState "a1" "p" keyEnv).2.selectKeyCalls = 1
    ∧ (generateVideo initState "a1" "p" keyEnv).2.submitCalls = 1 :=
  key_selection_once initState "a1" "p" keyEnv rfl
